import Mathlib

/-!
Verification of the noc-watch WiFi quality monitor (Go).

Shallow embedding of the core data model and operations:
* `WiFiTest` mirrors the Go struct `WiFiTest` (durations as `Int`
  nanoseconds, Go `time.Duration` being `int64`).
* `WiFiMonitor` mirrors the data fields of the Go struct `WiFiMonitor`
  (the tview UI handles carry no aggregated state and are omitted).
* `runDHCPRenew`, `runTest`, `runConnectivityTest` mirror the Go functions
  of the same names; the outcomes of external commands (dhclient, ping,
  resolv.conf contents, measured latency) are passed in explicitly, since
  the spec treats probe execution as an external `ProbeExecutor`.
* The ticker branches of `startMonitoring` become `recordDHCP`,
  `recordPing` and the step function `stepMonitor` over `TickEvent`s.
* `writeResultsToFile` becomes a pure function from the monitor state to
  the sequence of lines it appends, one `LogLine` per Go `Fprintf` call;
  success rates are computed over `ℚ` with exactly the source's guards.
-/

/-- One WiFi quality test result; mirrors the Go struct `WiFiTest`.
Durations (`DHCPRenewTime`, `Latency`) and the timestamp are `Int`,
matching Go's `time.Duration`/`time.Time` ordering-relevant content. -/
structure WiFiTest where
  dhcpRenewTime    : Int
  ipv4Connectivity : Bool
  ipv6Connectivity : Bool
  latency          : Int
  success          : Bool
  timestamp        : Int
deriving DecidableEq, Repr

/-- The aggregated monitor state; mirrors the data fields of the Go struct
`WiFiMonitor` (`dhcpTests`, `pingTests`, `successCount`, `totalCount`,
`wifiInterface`, `logFile`, `headless`). The tview widget pointers are
presentation handles, not aggregated state, and are not modelled. -/
structure WiFiMonitor where
  dhcpTests     : List WiFiTest
  pingTests     : List WiFiTest
  successCount  : Nat
  totalCount    : Nat
  wifiInterface : String
  logFile       : String
  headless      : Bool
deriving DecidableEq, Repr

/-- `NewWiFiMonitor`: empty histories, zero counters (Go zero values for
the counters), configuration resolved from the environment. -/
def NewWiFiMonitor (iface logFile : String) (headless : Bool) : WiFiMonitor :=
  { dhcpTests := [], pingTests := [], successCount := 0, totalCount := 0,
    wifiInterface := iface, logFile := logFile, headless := headless }

/-- Outcomes of the external commands `runDHCPRenew` runs: whether the
`dhclient` renewal errored, whether reading `/etc/resolv.conf` errored,
whether its contents contain `nameserver`, and the elapsed renewal time. -/
structure DHCPEnv where
  renewErr      : Bool
  resolvReadErr : Bool
  hasNameserver : Bool
  elapsed       : Int
deriving DecidableEq, Repr

/-- `runDHCPRenew`: returns `(0, false)` when the renewal command errors,
when resolv.conf cannot be read, or when no nameserver is configured;
otherwise `(elapsed, true)`. Mirrors the Go function line by line. -/
def runDHCPRenew (e : DHCPEnv) : Int × Bool :=
  if e.renewErr then (0, false)
  else if e.resolvReadErr then (0, false)
  else if !e.hasNameserver then (0, false)
  else (e.elapsed, true)

/-- `runTest`: builds a full test result from the DHCP renewal outcome and
the externally measured connectivity/latency values.
`Success = dhcpSuccess && IPv4Connectivity && (Latency > 0)`. -/
def runTest (dhcp : Int × Bool) (ipv4 ipv6 : Bool) (latency ts : Int) : WiFiTest :=
  { dhcpRenewTime := dhcp.1
    ipv4Connectivity := ipv4
    ipv6Connectivity := ipv6
    latency := latency
    success := dhcp.2 && ipv4 && decide (0 < latency)
    timestamp := ts }

/-- `runConnectivityTest`: DHCP renewal skipped (`DHCPRenewTime = 0`),
`Success = IPv4Connectivity && (Latency > 0)`. -/
def runConnectivityTest (ipv4 ipv6 : Bool) (latency ts : Int) : WiFiTest :=
  { dhcpRenewTime := 0
    ipv4Connectivity := ipv4
    ipv6Connectivity := ipv6
    latency := latency
    success := ipv4 && decide (0 < latency)
    timestamp := ts }

/-- The `dhcpTicker` branch of `startMonitoring`: append the test to
`dhcpTests`, increment `totalCount`, and increment `successCount` when the
test succeeded. -/
def recordDHCP (w : WiFiMonitor) (test : WiFiTest) : WiFiMonitor :=
  { w with
    dhcpTests := w.dhcpTests ++ [test]
    totalCount := w.totalCount + 1
    successCount := w.successCount + (if test.success then 1 else 0) }

/-- The `pingTicker` branch of `startMonitoring`: append the test to
`pingTests`, increment `totalCount`, and increment `successCount` when the
test succeeded. -/
def recordPing (w : WiFiMonitor) (test : WiFiTest) : WiFiMonitor :=
  { w with
    pingTests := w.pingTests ++ [test]
    totalCount := w.totalCount + 1
    successCount := w.successCount + (if test.success then 1 else 0) }

/-- Number of entries with `Success == true`; mirrors the counting loops in
`updateUI` and `writeResultsToFile`. -/
def countSuccesses (tests : List WiFiTest) : Nat :=
  (tests.filter (fun t => t.success)).length

/-- Overall success rate, as computed in both `updateUI` and
`writeResultsToFile`: `successCount / totalCount * 100` when
`totalCount > 0`, else `0`. -/
def overallSuccessRate (w : WiFiMonitor) : ℚ :=
  if 0 < w.totalCount then (w.successCount : ℚ) / (w.totalCount : ℚ) * 100 else 0

/-- DHCP-class success rate, as computed in both `updateUI` and
`writeResultsToFile`: guarded by `len(dhcpTests) > 0`, else `0`. -/
def dhcpSuccessRate (w : WiFiMonitor) : ℚ :=
  if 0 < w.dhcpTests.length then
    (countSuccesses w.dhcpTests : ℚ) / (w.dhcpTests.length : ℚ) * 100
  else 0

/-- Ping-class success rate, as computed in both `updateUI` and
`writeResultsToFile`: guarded by `len(pingTests) > 0`, else `0`. -/
def pingSuccessRate (w : WiFiMonitor) : ℚ :=
  if 0 < w.pingTests.length then
    (countSuccesses w.pingTests : ℚ) / (w.pingTests.length : ℚ) * 100
  else 0

/-- The window of DHCP results the chart in `updateUI` displays: the Go
loop ranges over `dhcpTests` from index 0 and breaks at `i >= 10`, so the
displayed entries are the first ten of the slice. -/
def displayedDHCPWindow (tests : List WiFiTest) : List WiFiTest :=
  tests.take 10

/-- The window of ping results the chart in `updateUI` displays; same loop
shape as the DHCP chart. -/
def displayedPingWindow (tests : List WiFiTest) : List WiFiTest :=
  tests.take 10

/-- The spec's `latest(n)` contract, stated from the spec's words: the `n`
chronologically most recent entries in insertion order (oldest of the
window first), fewer when the history is shorter. Used only to compare
the displayed window against the specified one. -/
def specLatest (n : Nat) (tests : List WiFiTest) : List WiFiTest :=
  tests.drop (tests.length - n)

/-- One line of the block `writeResultsToFile` appends to the log file;
one constructor per Go `Fprintf` call, carrying the formatted values. -/
inductive LogLine where
  | header (time : String)
  | dhcpTest (success : Bool) (renewTime : Int)
  | pingTest (success ipv4 ipv6 : Bool) (latency : Int)
  | totals (total succeeded : Nat) (rate : ℚ)
  | dhcpRate (rate : ℚ)
  | pingRate (rate : ℚ)
  | delimiter
deriving DecidableEq, Repr

/-- Whether a log line is the most-recent-DHCP-result line. -/
def LogLine.isDhcpLine : LogLine → Bool
  | .dhcpTest _ _ => true
  | _ => false

/-- Whether a log line is the most-recent-ping-result line. -/
def LogLine.isPingLine : LogLine → Bool
  | .pingTest _ _ _ _ => true
  | _ => false

/-- `writeResultsToFile` as the sequence of lines it appends, in the order
of the Go `Fprintf` calls: timestamped header; latest DHCP result if
`dhcpTests` is nonempty; latest ping result if `pingTests` is nonempty;
totals with overall rate; DHCP-class rate; ping-class rate; delimiter. -/
def writeResultsToFile (w : WiFiMonitor) (time : String) : List LogLine :=
  [LogLine.header time]
  ++ (match w.dhcpTests.getLast? with
      | some t => [LogLine.dhcpTest t.success t.dhcpRenewTime]
      | none => [])
  ++ (match w.pingTests.getLast? with
      | some t => [LogLine.pingTest t.success t.ipv4Connectivity t.ipv6Connectivity t.latency]
      | none => [])
  ++ [LogLine.totals w.totalCount w.successCount (overallSuccessRate w),
      LogLine.dhcpRate (dhcpSuccessRate w),
      LogLine.pingRate (pingSuccessRate w),
      LogLine.delimiter]

/-- One ticker fire of the headless `startMonitoring` loop, carrying the
external probe outcomes (for `dhcpTick`/`pingTick`) or whether the log
append succeeded (for `fileTick`). -/
inductive TickEvent where
  | dhcpTick (dhcp : Int × Bool) (ipv4 ipv6 : Bool) (latency ts : Int)
  | pingTick (ipv4 ipv6 : Bool) (latency ts : Int)
  | fileTick (writeOk : Bool) (time : String)
deriving DecidableEq, Repr

/-- The effect of one ticker fire on the monitor state, per the `select`
arms of `startMonitoring`: the DHCP arm records a full test, the ping arm
a connectivity-only test; the file arm only reads the state. -/
def stepMonitor (w : WiFiMonitor) : TickEvent → WiFiMonitor
  | .dhcpTick dhcp ipv4 ipv6 latency ts =>
      recordDHCP w (runTest dhcp ipv4 ipv6 latency ts)
  | .pingTick ipv4 ipv6 latency ts =>
      recordPing w (runConnectivityTest ipv4 ipv6 latency ts)
  | .fileTick _ _ => w

/-- Running the monitoring loop over a sequence of ticker fires. -/
def runMonitor (w : WiFiMonitor) (events : List TickEvent) : WiFiMonitor :=
  events.foldl stepMonitor w

/-- What one ticker fire makes externally visible: on a successful file
tick the appended block; on a failed one the `fmt.Printf` error diagnostic
(`"Error writing to file: %v"`) on the process's standard output. -/
inductive Emitted where
  | logBlock (lines : List LogLine)
  | writeError
deriving DecidableEq, Repr

/-- Output of one ticker fire: the file arm of the `select` either appends
the block or prints the error and, either way, the loop proceeds. -/
def stepEmit (w : WiFiMonitor) : TickEvent → List Emitted
  | .fileTick ok time =>
      if ok then [Emitted.logBlock (writeResultsToFile w time)] else [Emitted.writeError]
  | _ => []

/-- The counter invariant of the aggregator state: `totalCount` is the
total number of history entries and `successCount` the number of
successful ones, across both histories. -/
def countInv (w : WiFiMonitor) : Prop :=
  w.totalCount = w.dhcpTests.length + w.pingTests.length ∧
  w.successCount = countSuccesses w.dhcpTests + countSuccesses w.pingTests

/-! ## Helper lemmas -/

lemma countSuccesses_append_singleton (l : List WiFiTest) (t : WiFiTest) :
    countSuccesses (l ++ [t]) = countSuccesses l + (if t.success then 1 else 0) := by
  by_cases h : t.success <;>
    simp [countSuccesses, List.filter_append, List.filter, h]

lemma countInv_step (w : WiFiMonitor) (e : TickEvent) (h : countInv w) :
    countInv (stepMonitor w e) := by
  obtain ⟨h1, h2⟩ := h
  cases e with
  | dhcpTick dhcp ipv4 ipv6 latency ts =>
      refine ⟨?_, ?_⟩ <;>
        simp [stepMonitor, recordDHCP, countSuccesses_append_singleton, h1, h2] <;>
        omega
  | pingTick ipv4 ipv6 latency ts =>
      refine ⟨?_, ?_⟩ <;>
        simp [stepMonitor, recordPing, countSuccesses_append_singleton, h1, h2] <;>
        omega
  | fileTick ok time => exact ⟨h1, h2⟩

lemma countInv_runMonitor (events : List TickEvent) (w : WiFiMonitor)
    (h : countInv w) : countInv (runMonitor w events) := by
  induction events generalizing w with
  | nil => exact h
  | cons e rest ih =>
      simpa [runMonitor] using ih (stepMonitor w e) (countInv_step w e h)

/-! ## Claims -/

/-- C1: starting from the initial empty monitor state, after any sequence
of recording steps (any interleaving of DHCP and ping recordings, file
ticks included), `totalCount` equals the number of entries in the lease
history plus the number in the connectivity history, and `successCount`
equals the number of entries with `success = true` across both. Since
this holds for every event list, it holds after each step of any run. -/
theorem counters_match_histories (iface logFile : String) (headless : Bool)
    (events : List TickEvent) :
    countInv (runMonitor (NewWiFiMonitor iface logFile headless) events) := by
  apply countInv_runMonitor
  exact ⟨rfl, rfl⟩

/-- C1 witness: a concrete run — one successful DHCP test, one failed ping
test, one file tick — satisfies the counter invariant. -/
theorem counters_match_histories_witness :
    countInv (runMonitor (NewWiFiMonitor "wlan0" "noc-watch.log" true)
      [TickEvent.dhcpTick (2500000000, true) true true 15000000 0,
       TickEvent.pingTick false true 0 1,
       TickEvent.fileTick true "2024-01-15 10:30:00"]) :=
  counters_match_histories "wlan0" "noc-watch.log" true _

/-- C3: a lease-renewal (full) test is successful iff the DHCP renewal
succeeded, IPv4 is reachable and the latency is strictly positive; in
particular `(leaseRenewSucceeded, ipv4, latency) = (true, true, 15ms)`
gives `success = true` and the same with `ipv4 = false` gives `false`. -/
theorem runTest_success_iff (dhcp : Int × Bool) (ipv4 ipv6 : Bool) (lat ts : Int) :
    ((runTest dhcp ipv4 ipv6 lat ts).success = true ↔
      dhcp.2 = true ∧ ipv4 = true ∧ 0 < lat) ∧
    (runTest (2500000000, true) true ipv6 15000000 ts).success = true ∧
    (runTest (2500000000, true) false ipv6 15000000 ts).success = false := by
  refine ⟨?_, by simp [runTest], by simp [runTest]⟩
  simp [runTest, and_assoc]

/-- C4: a connectivity-only test is successful iff IPv4 is reachable and
the latency is strictly positive; `ipv4 = true, latency = 0` gives
`success = false`, and IPv6 reachability never influences success. -/
theorem runConnectivityTest_success_iff (ipv4 ipv6 ipv6' : Bool) (lat ts : Int) :
    ((runConnectivityTest ipv4 ipv6 lat ts).success = true ↔
      ipv4 = true ∧ 0 < lat) ∧
    (runConnectivityTest true ipv6 0 ts).success = false ∧
    (runConnectivityTest ipv4 ipv6 lat ts).success =
      (runConnectivityTest ipv4 ipv6' lat ts).success := by
  refine ⟨?_, by simp [runConnectivityTest], by simp [runConnectivityTest]⟩
  simp [runConnectivityTest]

/-- C5: every computed success rate is total, with the division guarded:
when `totalCount = 0` the overall rate is `0`, and when a class's history
is empty that class's rate is `0`. -/
theorem successRates_guarded (w : WiFiMonitor) :
    (w.totalCount = 0 → overallSuccessRate w = 0) ∧
    (w.dhcpTests = [] → dhcpSuccessRate w = 0) ∧
    (w.pingTests = [] → pingSuccessRate w = 0) := by
  refine ⟨fun h => ?_, fun h => ?_, fun h => ?_⟩ <;>
    simp [overallSuccessRate, dhcpSuccessRate, pingSuccessRate, h]

/-- C5 witness: on the initial empty monitor all three rates are `0`. -/
theorem successRates_guarded_witness :
    overallSuccessRate (NewWiFiMonitor "wlan0" "noc-watch.log" true) = 0 ∧
    dhcpSuccessRate (NewWiFiMonitor "wlan0" "noc-watch.log" true) = 0 ∧
    pingSuccessRate (NewWiFiMonitor "wlan0" "noc-watch.log" true) = 0 :=
  ⟨(successRates_guarded _).1 rfl,
   (successRates_guarded _).2.1 rfl,
   (successRates_guarded _).2.2 rfl⟩

/-- C9: recording a connectivity-class result modifies only `pingTests`,
`totalCount` and `successCount`, leaving the DHCP history and the
configuration fields unchanged; symmetrically for a lease-class result. -/
theorem record_frame (w : WiFiMonitor) (t : WiFiTest) :
    ((recordPing w t).dhcpTests = w.dhcpTests ∧
     (recordPing w t).wifiInterface = w.wifiInterface ∧
     (recordPing w t).logFile = w.logFile ∧
     (recordPing w t).headless = w.headless ∧
     (recordPing w t).pingTests = w.pingTests ++ [t] ∧
     (recordPing w t).totalCount = w.totalCount + 1 ∧
     (recordPing w t).successCount =
       w.successCount + (if t.success then 1 else 0)) ∧
    ((recordDHCP w t).pingTests = w.pingTests ∧
     (recordDHCP w t).wifiInterface = w.wifiInterface ∧
     (recordDHCP w t).logFile = w.logFile ∧
     (recordDHCP w t).headless = w.headless ∧
     (recordDHCP w t).dhcpTests = w.dhcpTests ++ [t] ∧
     (recordDHCP w t).totalCount = w.totalCount + 1 ∧
     (recordDHCP w t).successCount =
       w.successCount + (if t.success then 1 else 0)) := by
  simp [recordPing, recordDHCP]

/-- C7: when the DHCP renewal command errors, `runDHCPRenew` returns
`(0, false)`; the resulting full test has `success = false` and a zero
renewal duration; recording it appends exactly one entry to `dhcpTests`
and increments `totalCount` but not `successCount` (no retry, no error
raised — `recordDHCP` is total). When every external action fails
(connectivity false, latency unmeasured) all measured fields are zero. -/
theorem probe_failure_recorded (e : DHCPEnv) (ipv4 ipv6 : Bool) (lat ts : Int)
    (w : WiFiMonitor) (h : e.renewErr = true) :
    runDHCPRenew e = (0, false) ∧
    (runTest (runDHCPRenew e) ipv4 ipv6 lat ts).success = false ∧
    (runTest (runDHCPRenew e) ipv4 ipv6 lat ts).dhcpRenewTime = 0 ∧
    recordDHCP w (runTest (runDHCPRenew e) ipv4 ipv6 lat ts) =
      { w with
        dhcpTests := w.dhcpTests ++ [runTest (runDHCPRenew e) ipv4 ipv6 lat ts],
        totalCount := w.totalCount + 1 } ∧
    runTest (runDHCPRenew e) false false 0 ts =
      { dhcpRenewTime := 0, ipv4Connectivity := false, ipv6Connectivity := false,
        latency := 0, success := false, timestamp := ts } := by
  simp [runDHCPRenew, h, runTest, recordDHCP]

/-- C7 witness: concrete failing renewal recorded into the fresh monitor. -/
theorem probe_failure_recorded_witness :
    (⟨true, false, true, 5⟩ : DHCPEnv).renewErr = true ∧
    (runDHCPRenew ⟨true, false, true, 5⟩ = (0, false) ∧
     (runTest (runDHCPRenew ⟨true, false, true, 5⟩) true true 15000000 0).success = false ∧
     (runTest (runDHCPRenew ⟨true, false, true, 5⟩) true true 15000000 0).dhcpRenewTime = 0 ∧
     recordDHCP (NewWiFiMonitor "wlan0" "noc-watch.log" true)
         (runTest (runDHCPRenew ⟨true, false, true, 5⟩) true true 15000000 0) =
       { NewWiFiMonitor "wlan0" "noc-watch.log" true with
         dhcpTests := (NewWiFiMonitor "wlan0" "noc-watch.log" true).dhcpTests ++
           [runTest (runDHCPRenew ⟨true, false, true, 5⟩) true true 15000000 0],
         totalCount := (NewWiFiMonitor "wlan0" "noc-watch.log" true).totalCount + 1 } ∧
     runTest (runDHCPRenew ⟨true, false, true, 5⟩) false false 0 0 =
       { dhcpRenewTime := 0, ipv4Connectivity := false, ipv6Connectivity := false,
         latency := 0, success := false, timestamp := 0 }) :=
  ⟨rfl, probe_failure_recorded ⟨true, false, true, 5⟩ true true 15000000 0
    (NewWiFiMonitor "wlan0" "noc-watch.log" true) rfl⟩

/-- C8: a failed log append leaves the monitor state exactly as it was,
the loop proceeds to the remaining ticker fires unchanged, and the failure
is reported as the operator-visible error diagnostic. -/
theorem sink_failure_preserves_state (w : WiFiMonitor) (time : String)
    (rest : List TickEvent) :
    stepMonitor w (TickEvent.fileTick false time) = w ∧
    runMonitor w (TickEvent.fileTick false time :: rest) = runMonitor w rest ∧
    stepEmit w (TickEvent.fileTick false time) = [Emitted.writeError] := by
  refine ⟨rfl, ?_, rfl⟩
  simp [runMonitor, stepMonitor]

/-- A test that failed on every measurement. -/
def failedTest : WiFiTest :=
  { dhcpRenewTime := 0, ipv4Connectivity := false, ipv6Connectivity := false,
    latency := 0, success := false, timestamp := 0 }

/-- A successful recent test. -/
def recentTest : WiFiTest :=
  { dhcpRenewTime := 0, ipv4Connectivity := true, ipv6Connectivity := true,
    latency := 1, success := true, timestamp := 10 }

/-- An 11-entry history whose most recent entry differs from the first ten. -/
def elevenTests : List WiFiTest :=
  List.replicate 10 failedTest ++ [recentTest]

/-- C2: on an 11-entry history the chart loop of `updateUI` (which breaks
at index 10 counting from the front) displays the ten oldest entries, not
the ten most recent: the displayed window differs from the specified
`latest(10)` window and misses the most recent entry entirely, although it
indeed never exceeds 10 entries. -/
theorem displayed_window_shows_oldest :
    elevenTests.length = 11 ∧
    (displayedDHCPWindow elevenTests).length ≤ 10 ∧
    displayedDHCPWindow elevenTests ≠ specLatest 10 elevenTests ∧
    recentTest ∉ displayedDHCPWindow elevenTests ∧
    recentTest ∈ specLatest 10 elevenTests ∧
    recentTest ∉ displayedPingWindow elevenTests := by
  decide

/-- C6 counterexample: on the initial monitor (both histories empty) the
appended block is just header, totals, the two class rates and the
delimiter — it contains neither a most-recent-lease line nor a
most-recent-connectivity line, so the block does not consist of the five
parts the claim lists. -/
theorem writeResults_empty_block_missing_result_lines :
    writeResultsToFile (NewWiFiMonitor "wlan0" "noc-watch.log" true)
        "2024-01-15 10:30:00" =
      [LogLine.header "2024-01-15 10:30:00", LogLine.totals 0 0 0,
       LogLine.dhcpRate 0, LogLine.pingRate 0, LogLine.delimiter] ∧
    ((writeResultsToFile (NewWiFiMonitor "wlan0" "noc-watch.log" true)
        "2024-01-15 10:30:00").all
      fun l => !l.isDhcpLine && !l.isPingLine) = true := by
  constructor <;> rfl

/-- C6 (amended): for every emission in which both histories are nonempty,
the appended block consists of, in order: the timestamped header; the most
recent lease-renewal result (success, duration); the most recent
connectivity result (success, ipv4, ipv6, latency); the totals line with
the overall rate, then the lease-class rate and the connectivity-class
rate; and the fixed closing delimiter. -/
theorem writeResults_block_shape (w : WiFiMonitor) (time : String)
    (h1 : w.dhcpTests ≠ []) (h2 : w.pingTests ≠ []) :
    writeResultsToFile w time =
      [LogLine.header time,
       LogLine.dhcpTest (w.dhcpTests.getLast h1).success
         (w.dhcpTests.getLast h1).dhcpRenewTime,
       LogLine.pingTest (w.pingTests.getLast h2).success
         (w.pingTests.getLast h2).ipv4Connectivity
         (w.pingTests.getLast h2).ipv6Connectivity
         (w.pingTests.getLast h2).latency,
       LogLine.totals w.totalCount w.successCount (overallSuccessRate w),
       LogLine.dhcpRate (dhcpSuccessRate w),
       LogLine.pingRate (pingSuccessRate w),
       LogLine.delimiter] := by
  simp [writeResultsToFile, List.getLast?_eq_getLast_of_ne_nil h1,
    List.getLast?_eq_getLast_of_ne_nil h2]

/-- A monitor holding one successful DHCP test and one successful ping
test (the README's end-to-end example: 2.5s renewal, 15ms latency). -/
def sampleMonitor : WiFiMonitor :=
  { dhcpTests := [{ dhcpRenewTime := 2500000000, ipv4Connectivity := true,
                    ipv6Connectivity := true, latency := 15000000,
                    success := true, timestamp := 0 }]
    pingTests := [{ dhcpRenewTime := 0, ipv4Connectivity := true,
                    ipv6Connectivity := true, latency := 15000000,
                    success := true, timestamp := 1 }]
    successCount := 2, totalCount := 2
    wifiInterface := "wlan0", logFile := "noc-watch.log", headless := true }

/-- C6 witness: the amended block shape evaluated on `sampleMonitor`. -/
theorem writeResults_block_shape_witness :
    sampleMonitor.dhcpTests ≠ [] ∧ sampleMonitor.pingTests ≠ [] ∧
    writeResultsToFile sampleMonitor "2024-01-15 10:30:00" =
      [LogLine.header "2024-01-15 10:30:00",
       LogLine.dhcpTest true 2500000000,
       LogLine.pingTest true true true 15000000,
       LogLine.totals 2 2 100,
       LogLine.dhcpRate 100,
       LogLine.pingRate 100,
       LogLine.delimiter] := by
  have h1 : sampleMonitor.dhcpTests ≠ [] := by simp [sampleMonitor]
  have h2 : sampleMonitor.pingTests ≠ [] := by simp [sampleMonitor]
  refine ⟨h1, h2, ?_⟩
  rw [writeResults_block_shape sampleMonitor "2024-01-15 10:30:00" h1 h2]
  norm_num [sampleMonitor, overallSuccessRate, dhcpSuccessRate,
    pingSuccessRate, countSuccesses]

/-- C10: when a class's history is empty the corresponding result line is
omitted entirely from the block (no line of that kind appears), while the
header, totals, both rate lines and the delimiter are still written; with
both histories empty the block contains no result lines at all. -/
theorem empty_history_line_omitted (w : WiFiMonitor) (time : String) :
    (w.dhcpTests = [] →
      ((writeResultsToFile w time).all fun l => !l.isDhcpLine) = true ∧
      LogLine.header time ∈ writeResultsToFile w time ∧
      LogLine.totals w.totalCount w.successCount (overallSuccessRate w) ∈
        writeResultsToFile w time ∧
      LogLine.dhcpRate (dhcpSuccessRate w) ∈ writeResultsToFile w time ∧
      LogLine.pingRate (pingSuccessRate w) ∈ writeResultsToFile w time ∧
      LogLine.delimiter ∈ writeResultsToFile w time) ∧
    (w.pingTests = [] →
      ((writeResultsToFile w time).all fun l => !l.isPingLine) = true ∧
      LogLine.header time ∈ writeResultsToFile w time ∧
      LogLine.delimiter ∈ writeResultsToFile w time) ∧
    (w.dhcpTests = [] → w.pingTests = [] →
      ((writeResultsToFile w time).all
        fun l => !l.isDhcpLine && !l.isPingLine) = true) := by
  refine ⟨fun h => ?_, fun h => ?_, fun h h' => ?_⟩
  · cases hp : w.pingTests.getLast? <;>
      simp [writeResultsToFile, h, hp, LogLine.isDhcpLine]
  · cases hd : w.dhcpTests.getLast? <;>
      simp [writeResultsToFile, h, hd, LogLine.isPingLine]
  · simp [writeResultsToFile, h, h', LogLine.isDhcpLine, LogLine.isPingLine]

/-- C10 witness: on the initial monitor both result lines are omitted and
the header, totals, rates and delimiter are present. -/
theorem empty_history_line_omitted_witness :
    (((writeResultsToFile (NewWiFiMonitor "wlan0" "noc-watch.log" true) "t").all
        fun l => !l.isDhcpLine) = true ∧
      LogLine.header "t" ∈
        writeResultsToFile (NewWiFiMonitor "wlan0" "noc-watch.log" true) "t" ∧
      LogLine.totals (NewWiFiMonitor "wlan0" "noc-watch.log" true).totalCount
          (NewWiFiMonitor "wlan0" "noc-watch.log" true).successCount
          (overallSuccessRate (NewWiFiMonitor "wlan0" "noc-watch.log" true)) ∈
        writeResultsToFile (NewWiFiMonitor "wlan0" "noc-watch.log" true) "t" ∧
      LogLine.dhcpRate (dhcpSuccessRate (NewWiFiMonitor "wlan0" "noc-watch.log" true)) ∈
        writeResultsToFile (NewWiFiMonitor "wlan0" "noc-watch.log" true) "t" ∧
      LogLine.pingRate (pingSuccessRate (NewWiFiMonitor "wlan0" "noc-watch.log" true)) ∈
        writeResultsToFile (NewWiFiMonitor "wlan0" "noc-watch.log" true) "t" ∧
      LogLine.delimiter ∈
        writeResultsToFile (NewWiFiMonitor "wlan0" "noc-watch.log" true) "t") ∧
    ((writeResultsToFile (NewWiFiMonitor "wlan0" "noc-watch.log" true) "t").all
      fun l => !l.isDhcpLine && !l.isPingLine) = true :=
  ⟨(empty_history_line_omitted (NewWiFiMonitor "wlan0" "noc-watch.log" true) "t").1 rfl,
   (empty_history_line_omitted (NewWiFiMonitor "wlan0" "noc-watch.log" true) "t").2.2 rfl rfl⟩
